import Mathlib

/-!
Verification development for the client-side data-orchestration pipeline of the
AI-Powered Crypto Analysis Platform (single source file `src/app.tsx`).

The definitions below are a shallow embedding of the TypeScript source:
* `translateText` embeds the translation helper (app.tsx lines 120-142);
* `stripMarkdown` embeds the regex-based markdown stripper (lines 213-219);
* the typewriter state machine embeds the two `useEffect` hooks at lines
  281-315;
* `fetchCoinsProcess` embeds the quote-list fetch handler (lines 327-365);
* `cycleBody` / `runDetailCycle` embed `fetchChartAndIndicatorsData`
  (lines 369-533), with the network responses passed in explicitly as an
  environment value and the `technicalindicators` library calls passed in as a
  function record (that library is an external dependency, not part of the
  repository sources).

Machine floats from JS are modelled as rationals (`ℚ`); `toFixed(d)` followed
by `parseFloat` is modelled as exact decimal rounding `roundToFixed d`
(round to nearest, ties toward +infinity, matching the ECMAScript `toFixed`
specification "if there are two such n, pick the larger n").
-/

namespace CryptoApp

/-- The display language type from app.tsx line 15 (`'en' | 'tr'`). -/
inductive Language where
  | en
  | tr
deriving DecidableEq

/-- Outcome of the remote translation fetch in `translateText` (lines 124-137):
a network-level failure (fetch throws), a non-ok HTTP response, a response
whose JSON body does not have the expected shape (so that `data[0].map`
throws), or a well-formed body consisting of translated segments. -/
inductive TranslateNet where
  | netError
  | notOk
  | malformed
  | ok (segments : List String)
deriving DecidableEq

/-- Embedding of `translateText` (app.tsx lines 120-142).  Returns the result
string together with a flag recording whether the network fetch was issued.
The JS guard `!text || targetLang === 'en'` returns the input with no fetch;
otherwise the fetch is issued and every failure path falls into the `catch`
block, which returns the original text (the function never throws to its
caller). -/
def translateText (text : String) (targetLang : Language) (net : TranslateNet) :
    String × Bool :=
  if text = "" ∨ targetLang = Language.en then (text, false)
  else
    match net with
    | TranslateNet.ok segments => (String.join segments, true)
    | _ => (text, true)

/-- Scan for the closing two-character delimiter `[d, d]` of the non-greedy
regex `(\*\*|__)(.*?)\1`: returns the inner text (which may not contain a
newline, since `.` does not match `\n`) and the remainder after the closing
delimiter, or `none` when the pattern cannot close. -/
def findClose2 (d : Char) : List Char → Option (List Char × List Char)
  | [] => none
  | c :: rest =>
    if c = d ∧ rest.head? = some d then some ([], rest.tail)
    else if c = '\n' then none
    else
      match findClose2 d rest with
      | some (inner, rest') => some (c :: inner, rest')
      | none => none

/-- Scan for the closing one-character delimiter `d` of the non-greedy regex
`(\*|_)(.*?)\1` (inner text may not contain a newline). -/
def findClose1 (d : Char) : List Char → Option (List Char × List Char)
  | [] => none
  | c :: rest =>
    if c = d then some ([], rest)
    else if c = '\n' then none
    else
      match findClose1 d rest with
      | some (inner, rest') => some (c :: inner, rest')
      | none => none

/-- One global replacement pass of `text.replace(/(\*\*|__)(.*?)\1/g, '$2')`
(the bold pass of `stripMarkdown`, app.tsx line 216): successive non-overlapping
leftmost matches are replaced by their inner text, which is not rescanned.
The extra fuel argument (instantiated with the list length, an upper bound on
the number of recursion steps) only makes the recursion structural so that the
kernel can evaluate the definition; the fuel-exhausted case is unreachable. -/
def strip2Fuel : Nat → List Char → List Char
  | 0, cs => cs
  | _ + 1, [] => []
  | _ + 1, [c] => [c]
  | fuel + 1, c :: c2 :: rest =>
    if (c = '*' ∧ c2 = '*') ∨ (c = '_' ∧ c2 = '_') then
      match findClose2 c rest with
      | some (inner, rest') => inner ++ strip2Fuel fuel rest'
      | none => c :: strip2Fuel fuel (c2 :: rest)
    else c :: strip2Fuel fuel (c2 :: rest)

/-- One global replacement pass of `plainText.replace(/(\*|_)(.*?)\1/g, '$2')`
(the italic pass of `stripMarkdown`, app.tsx line 217).  Fueled like
`strip2Fuel`. -/
def strip1Fuel : Nat → List Char → List Char
  | 0, cs => cs
  | _ + 1, [] => []
  | fuel + 1, c :: rest =>
    if c = '*' ∨ c = '_' then
      match findClose1 c rest with
      | some (inner, rest') => inner ++ strip1Fuel fuel rest'
      | none => c :: strip1Fuel fuel rest
    else c :: strip1Fuel fuel rest

/-- Embedding of `stripMarkdown` (app.tsx lines 213-219): first the bold pass,
then the italic pass on its output. -/
def stripMarkdown (text : String) : String :=
  let pass1 := strip2Fuel text.toList.length text.toList
  String.mk (strip1Fuel pass1.length pass1)

/-- Length of the markdown-stripped text (`plainAiSummary.length` in the
typewriter effect, app.tsx line 296). -/
def plainLen (t : String) : Nat := (stripMarkdown t).length

/-- State of the typewriter renderer: the current source string
(`translatedAiSummary`), the reveal counter (`visibleCharacters`) and whether
the interval timer is still running. -/
structure TypewriterState where
  text : String
  visible : Nat
  timerActive : Bool
deriving DecidableEq

/-- One interval tick of the typewriter effect (app.tsx lines 294-303): while
the counter is below the stripped length it is incremented, otherwise the
interval is cleared and the counter kept. -/
def twTick (s : TypewriterState) : TypewriterState :=
  if s.timerActive then
    if s.visible < plainLen s.text then { s with visible := s.visible + 1 }
    else { s with timerActive := false }
  else s

/-- Re-run of the typewriter effect when `translatedAiSummary` is replaced
(app.tsx lines 281-307).  The effect cleanup clears the previous interval, so
the resulting state does not depend on the prior state at all; an empty string
resets the counter with no timer, a non-empty string resets the counter and
starts a fresh timer. -/
def twSetText (t : String) (_s : TypewriterState) : TypewriterState :=
  if t = "" then { text := t, visible := 0, timerActive := false }
  else { text := t, visible := 0, timerActive := true }

/-- Embedding of the `displayedAiSummary` update (app.tsx lines 310-315
together with the empty-string branch of lines 282-285): for a non-empty
translated summary the displayed text is
`stripMarkdown(translatedAiSummary).slice(0, visibleCharacters)`, and for an
empty summary the typewriter effect sets the displayed text to `''`. -/
def displayedAiSummary (translated : String) (visible : Nat) : String :=
  if translated = "" then ""
  else String.mk (((stripMarkdown translated).toList).take visible)

/-- Exact model of JS `parseFloat(x.toFixed(d))` on the rational model of the
float `x`: round `x` to `d` decimal places, to nearest with ties toward
+infinity (ECMAScript `toFixed`: "if there are two such n, pick the larger
n"). -/
def roundToFixed (d : Nat) (x : ℚ) : ℚ :=
  (⌊x * (10 : ℚ) ^ d + 1 / 2⌋ : ℤ) / (10 : ℚ) ^ d

/-- A news item, `{ title, url }` (app.tsx lines 154-157). -/
structure NewsItem where
  title : String
  url : String
deriving DecidableEq

/-- A processed coin entry, mirroring the `CoinData` interface
(app.tsx lines 165-177).  `cmcRank` is kept as a natural number: the typed
interface declares `cmcRank: number` (the JS fallback of the string `'N/A'`
for a falsy rank at line 347 escapes the declared type and is outside this
numeric model). -/
structure CoinData where
  id : Nat
  name : String
  symbol : String
  logo : String
  currentPrice : ℚ
  volume24h : ℚ
  percentChange1h : ℚ
  percentChange24h : ℚ
  percentChange7d : ℚ
  marketCap : ℚ
  cmcRank : Nat
deriving DecidableEq

/-- A raw coin entry as delivered by the quotes endpoint, before the
defaulting performed by the `json.map` at app.tsx lines 336-348.  `none`
models an absent (`undefined`/falsy) field. -/
structure RawCoin where
  id : Nat
  name : String
  symbol : String
  logo : Option String
  currentPrice : Option ℚ
  volume24h : Option ℚ
  percentChange1h : Option ℚ
  percentChange24h : Option ℚ
  percentChange7d : Option ℚ
  marketCap : Option ℚ
  cmcRank : Nat
deriving DecidableEq

/-- The per-coin defaulting of the `json.map` callback in `fetchCoins`
(app.tsx lines 336-348). -/
def mapCoin (c : RawCoin) : CoinData :=
  { id := c.id
    name := c.name
    symbol := c.symbol
    logo := c.logo.getD "https://cryptologos.cc/logos/placeholder-logo.png"
    currentPrice := c.currentPrice.getD 0
    volume24h := c.volume24h.getD 0
    percentChange1h := c.percentChange1h.getD 0
    percentChange24h := c.percentChange24h.getD 0
    percentChange7d := c.percentChange7d.getD 0
    marketCap := c.marketCap.getD 0
    cmcRank := c.cmcRank }

instance : DecidableRel (fun a b : CoinData => a.cmcRank ≤ b.cmcRank) :=
  fun a b => Nat.decLe a.cmcRank b.cmcRank

instance : IsTotal CoinData (fun a b => a.cmcRank ≤ b.cmcRank) :=
  ⟨fun a b => Nat.le_total a.cmcRank b.cmcRank⟩

instance : IsTrans CoinData (fun a b => a.cmcRank ≤ b.cmcRank) :=
  ⟨fun _ _ _ hab hbc => Nat.le_trans hab hbc⟩

/-- The success path of `fetchCoins` (app.tsx lines 335-355): map the raw
payload, sort by CMC rank ascending (`fetchedCoins.sort((a, b) =>
a.cmcRank - b.cmcRank)`), store the list, and when it is non-empty select the
first coin's symbol (`setSelected(fetchedCoins[0].symbol)`).  Returns the
stored coin list and the selection update (`none` when no `setSelected`
happens). -/
def fetchCoinsProcess (json : List RawCoin) : List CoinData × Option String :=
  let fetchedCoins := json.map mapCoin
  let sorted := List.insertionSort (fun a b => a.cmcRank ≤ b.cmcRank) fetchedCoins
  (sorted, sorted.head?.map (fun c => c.symbol))

/-- One OHLCV history entry from the Twelve Data endpoint; only the fields the
component reads (`datetime` for sorting/labels, `close` for prices).  The
datetime is modelled as a numeric timestamp (the code compares
`new Date(...).getTime()` values and formats labels from the same dates). -/
structure PricePoint where
  datetime : Nat
  close : ℚ
deriving DecidableEq

instance : DecidableRel (fun a b : PricePoint => a.datetime ≤ b.datetime) :=
  fun a b => Nat.decLe a.datetime b.datetime

/-- The chart dataset committed by `setChartData` (app.tsx lines 413-423):
labels (the sorted datetimes), the close-price series, and the dataset label
string. -/
structure ChartDataM where
  labels : List Nat
  priceData : List ℚ
  datasetLabel : String
deriving DecidableEq

/-- One entry of `MACD.calculate`'s output: the early entries of the real
library's output may lack `signal`/`histogram` (they are optional fields),
hence the `Option`s. -/
structure MacdPoint where
  MACD : Option ℚ
  signal : Option ℚ
  histogram : Option ℚ
deriving DecidableEq

/-- The `technicalindicators` library functions used at app.tsx lines 432,
444, 447 and 450, abstracted as a function record (the library is an external
npm dependency; its sources are not part of this repository).  `rsiCalc` and
`smaCalc` take the period of the call site; `macdCalc` is the fixed
(12, 26, 9) EMA configuration of the `macdInput` at lines 435-443. -/
structure IndicatorLib where
  rsiCalc : Nat → List ℚ → List ℚ
  macdCalc : List ℚ → List MacdPoint
  smaCalc : Nat → List ℚ → List ℚ

/-- Modelled from the spec: simple moving average, "simple rolling mean over
the trailing 50/200 closes; unavailable until that many points exist"
(spec section 4.1).  The library implementation is an external dependency not
present under src/. -/
def smaList (period : Nat) (values : List ℚ) : List ℚ :=
  if period = 0 then []
  else
    (List.range (values.length + 1 - period)).map
      (fun i => ((values.drop i).take period).sum / (period : ℚ))

/-- Modelled from the spec: exponential moving average seeded with the simple
mean of the first `period` values, used by the MACD contract of spec
section 4.1 ("fast EMA(12) minus slow EMA(26) ...").  External dependency not
present under src/. -/
def emaList (period : Nat) (values : List ℚ) : List ℚ :=
  if period = 0 ∨ values.length < period then []
  else
    let k : ℚ := 2 / ((period : ℚ) + 1)
    let seed := (values.take period).sum / (period : ℚ)
    ((values.drop period).foldl
      (fun (acc : ℚ × List ℚ) v =>
        let e := (v - acc.1) * k + acc.1
        (e, acc.2 ++ [e]))
      (seed, [seed])).2

/-- RSI value from smoothed average gain and loss. -/
def rsiOf (avgGain avgLoss : ℚ) : ℚ :=
  if avgLoss = 0 then 100 else 100 - 100 / (1 + avgGain / avgLoss)

/-- Modelled from the spec: RSI over a `period` window with Wilder smoothing,
"momentum oscillator over a 14-period window; ... unavailable if fewer than 14
usable deltas" (spec section 4.1).  External dependency not present under
src/. -/
def rsiList (period : Nat) (values : List ℚ) : List ℚ :=
  let deltas := List.zipWith (fun prev next => next - prev) values (values.drop 1)
  if period = 0 ∨ deltas.length < period then []
  else
    let seedGain := ((deltas.take period).map (fun d => max d 0)).sum / (period : ℚ)
    let seedLoss := ((deltas.take period).map (fun d => max (-d) 0)).sum / (period : ℚ)
    ((deltas.drop period).foldl
      (fun (acc : ℚ × ℚ × List ℚ) delta =>
        let g := (acc.1 * ((period : ℚ) - 1) + max delta 0) / (period : ℚ)
        let l := (acc.2.1 * ((period : ℚ) - 1) + max (-delta) 0) / (period : ℚ)
        (g, l, acc.2.2 ++ [rsiOf g l]))
      (seedGain, seedLoss, [rsiOf seedGain seedLoss])).2.2

/-- Modelled from the spec: MACD(12, 26, 9), "fast EMA(12) minus slow EMA(26)
yields the MACD line; a 9-period EMA of that line yields the signal line;
their difference yields the histogram.  All three unavailable until enough
leading periods have accumulated" (spec section 4.1).  External dependency not
present under src/. -/
def macdList (values : List ℚ) : List MacdPoint :=
  let fast := emaList 12 values
  let slow := emaList 26 values
  let line := List.zipWith (fun a b => a - b) (fast.drop 14) slow
  let sig := emaList 9 line
  (List.range line.length).map
    (fun i =>
      let m := line.get? i
      let sg := if 8 ≤ i then sig.get? (i - 8) else none
      let h :=
        match m, sg with
        | some a, some b => some (a - b)
        | _, _ => none
      { MACD := m, signal := sg, histogram := h })

/-- The spec-modelled indicator library used to instantiate `IndicatorLib` in
concrete runs. -/
def specLib : IndicatorLib :=
  { rsiCalc := rsiList, macdCalc := macdList, smaCalc := smaList }

/-- The `currentIndicators` object committed by `setIndicators`
(app.tsx lines 453-461).  `none` models the string `'N/A'` assigned when the
corresponding value is not a number; a present value is the result of
`parseFloat(x.toFixed(2))` (RSI) or `parseFloat(x.toFixed(4))` (MACD family
and SMAs).  `volume` is the constant placeholder `0` of line 460. -/
structure IndicatorsRec where
  rsi : Option ℚ
  macd : Option ℚ
  macdSignal : Option ℚ
  macdHistogram : Option ℚ
  sma50 : Option ℚ
  sma200 : Option ℚ
  volume : ℚ
deriving DecidableEq

/-- Embedding of the indicator computation block (app.tsx lines 428-461):
each library call's last output (or `'N/A'` when the output is empty /
the field is not a number) is rounded with `toFixed` and stored. -/
def computeCurrentIndicators (lib : IndicatorLib) (closePrices : List ℚ) :
    IndicatorsRec :=
  let rsi := lib.rsiCalc 14 closePrices
  let currentRsi := rsi.getLast?
  let macd := lib.macdCalc closePrices
  let currentMacd :=
    (macd.getLast?).getD { MACD := none, signal := none, histogram := none }
  let sma50 := lib.smaCalc 50 closePrices
  let currentSma50 := sma50.getLast?
  let sma200 := lib.smaCalc 200 closePrices
  let currentSma200 := sma200.getLast?
  { rsi := currentRsi.map (roundToFixed 2)
    macd := currentMacd.MACD.map (roundToFixed 4)
    macdSignal := currentMacd.signal.map (roundToFixed 4)
    macdHistogram := currentMacd.histogram.map (roundToFixed 4)
    sma50 := currentSma50.map (roundToFixed 4)
    sma200 := currentSma200.map (roundToFixed 4)
    volume := 0 }

/-- The JSON body of the `POST /api/ai/analyze-crypto` request
(app.tsx lines 470-481). -/
structure AiRequestBody where
  symbol : String
  currentPrice : ℚ
  percentChange24h : ℚ
  marketCap : ℚ
  rsi : Option ℚ
  macd : Option ℚ
  sma50 : Option ℚ
  sma200 : Option ℚ
  volume : ℚ
  news : List NewsItem
deriving DecidableEq

/-- Embedding of the AI-analysis request body construction (app.tsx lines
470-481): metrics from the current coin, the indicator fields taken from the
already-rounded `currentIndicators`, and the `news` state captured by the
effect closure. -/
def buildAiRequestBody (selected : String) (currentCoin : CoinData)
    (ind : IndicatorsRec) (newsState : List NewsItem) : AiRequestBody :=
  { symbol := selected
    currentPrice := currentCoin.currentPrice
    percentChange24h := currentCoin.percentChange24h
    marketCap := currentCoin.marketCap
    rsi := ind.rsi
    macd := ind.macd
    sma50 := ind.sma50
    sma200 := ind.sma200
    volume := currentCoin.volume24h
    news := newsState }

/-- Outcome of the OHLCV history fetch (app.tsx lines 396-402): a thrown
network error, a non-ok HTTP response (whose resolved error text is `errBody`),
or a parsed payload.  A payload with an empty `values` list also models a
missing/absent `values` field, since the guard at line 404
(`ohlcvJson && ohlcvJson.values && ohlcvJson.values.length > 0`) routes both
to the same branch. -/
inductive OhlcvOutcome where
  | netError (msg : String)
  | httpError (status : Nat) (errBody : String)
  | ok (values : List PricePoint)
deriving DecidableEq

/-- Outcome of the AI-analysis fetch (app.tsx lines 465-491). -/
inductive AiOutcome where
  | netError (msg : String)
  | httpError (status : Nat) (errBody : String)
  | ok (analysis : String)
deriving DecidableEq

/-- Outcome of the Tavily news fetch (app.tsx lines 493-508). -/
inductive NewsOutcome where
  | netError (msg : String)
  | httpError (status : Nat) (errBody : String)
  | ok (items : List NewsItem)
deriving DecidableEq

/-- The three remote responses available to one detail cycle. -/
structure DetailEnv where
  ohlcv : OhlcvOutcome
  ai : AiOutcome
  newsR : NewsOutcome
deriving DecidableEq

/-- Whether the AI outcome is a failure (fetch throws or non-ok response). -/
def aiFailed : AiOutcome → Bool
  | AiOutcome.ok _ => false
  | _ => true

/-- The error message thrown for a failed AI-analysis fetch: the fetch's own
error for a network failure, or the message built at app.tsx line 486 for a
non-ok response. -/
def aiThrownMsg : AiOutcome → String
  | AiOutcome.netError m => m
  | AiOutcome.httpError status errBody =>
    "AI Analysis API Error: " ++ toString status ++ " - " ++ errBody
  | AiOutcome.ok _ => ""

/-- Whether the OHLCV outcome is a failure. -/
def ohlcvFailed : OhlcvOutcome → Bool
  | OhlcvOutcome.ok _ => false
  | _ => true

/-- The error message thrown for a failed OHLCV fetch (app.tsx line 400). -/
def ohlcvThrownMsg : OhlcvOutcome → String
  | OhlcvOutcome.netError m => m
  | OhlcvOutcome.httpError status errBody =>
    "Twelve Data OHLCV API Error: " ++ toString status ++ " - " ++ errBody
  | OhlcvOutcome.ok _ => ""

/-- The error message thrown for a failed news fetch (app.tsx line 499). -/
def newsThrownMsg : NewsOutcome → String
  | NewsOutcome.netError m => m
  | NewsOutcome.httpError status errBody =>
    "Tavily News API Error: " ++ toString status ++ " - " ++ errBody
  | NewsOutcome.ok _ => ""

/-- The component state touched by `fetchChartAndIndicatorsData`.
`indicators = none` models the empty object `{}` of `setIndicators({})`
(every lookup yields `'N/A'`). -/
structure AppState where
  chartData : Option ChartDataM
  chartLoading : Bool
  chartError : Option String
  indicators : Option IndicatorsRec
  aiSummary : String
  news : List NewsItem
  newsLoading : Bool
  newsError : Option String
deriving DecidableEq

/-- Instrumentation of one detail cycle: the AI-analysis request that was
issued (with its body), if any, and whether the news fetch was issued. -/
structure DetailLog where
  aiRequest : Option AiRequestBody
  newsIssued : Bool
deriving DecidableEq

/-- The synchronous prelude of `fetchChartAndIndicatorsData`
(app.tsx lines 372-375): set both loading flags and clear both errors. -/
def cyclePrefix (s : AppState) : AppState :=
  { s with chartLoading := true, chartError := none,
           newsLoading := true, newsError := none }

/-- The outer `catch` block of the cycle (app.tsx lines 518-524): set the
chart error, clear the indicators, replace the AI summary by the error
placeholder, set the news error and clear the news list.  Note that
`chartData` is NOT touched here. -/
def detailCatch (msg : String) (s : AppState) : AppState :=
  { s with chartError := some msg
           indicators := none
           aiSummary := "AI analysis error: " ++ msg
           newsError := some msg
           news := [] }

/-- The `finally` block of the cycle (app.tsx lines 525-528). -/
def detailFinally (s : AppState) : AppState :=
  { s with chartLoading := false, newsLoading := false }

/-- The asynchronous body of `fetchChartAndIndicatorsData` after its prelude
(app.tsx lines 377-528), as a function of the captured symbol, the captured
coin list, the remote responses and the state it commits over.  Returns the
resulting state and the request log.  There is no comparison of the captured
symbol against the live selection anywhere in the source: every branch commits
unconditionally. -/
def cycleBody (lib : IndicatorLib) (selected : String) (coins : List CoinData)
    (env : DetailEnv) (s : AppState) : AppState × DetailLog :=
  match coins.find? (fun c => c.symbol == selected) with
  | none =>
    -- early return at lines 382-389: note it runs before the try/finally, so
    -- chartLoading stays true
    ({ s with chartData := none, indicators := none,
              aiSummary := "Please select a coin to view data.",
              news := [], newsLoading := false },
     { aiRequest := none, newsIssued := false })
  | some currentCoin =>
    match env.ohlcv with
    | OhlcvOutcome.ok values =>
      if values.length > 0 then
        let history := List.insertionSort
          (fun a b => a.datetime ≤ b.datetime) values
        let labels := history.map (fun p => p.datetime)
        let prices := history.map (fun p => p.close)
        let chart : ChartDataM :=
          { labels := labels
            priceData := prices
            datasetLabel := selected ++ " Price (USD)" }
        let s1 := { s with chartData := some chart }
        let closePrices := prices
        let ind := computeCurrentIndicators lib closePrices
        let s2 := { s1 with indicators := some ind }
        let body := buildAiRequestBody selected currentCoin ind s.news
        match env.ai with
        | AiOutcome.ok analysis =>
          let s3 := { s2 with aiSummary := analysis }
          match env.newsR with
          | NewsOutcome.ok items =>
            (detailFinally { s3 with news := items },
             { aiRequest := some body, newsIssued := true })
          | NewsOutcome.netError m =>
            (detailFinally { s3 with newsError := some m, news := [] },
             { aiRequest := some body, newsIssued := true })
          | NewsOutcome.httpError st b =>
            (detailFinally { s3 with
               newsError := some (newsThrownMsg (NewsOutcome.httpError st b))
               news := [] },
             { aiRequest := some body, newsIssued := true })
        | AiOutcome.netError m =>
          (detailFinally (detailCatch m s2),
           { aiRequest := some body, newsIssued := false })
        | AiOutcome.httpError st b =>
          (detailFinally
             (detailCatch (aiThrownMsg (AiOutcome.httpError st b)) s2),
           { aiRequest := some body, newsIssued := false })
      else
        let sEmpty :=
          { s with chartData := none
                   indicators := none
                   chartError :=
                     some "No OHLCV data found for this coin from Twelve Data."
                   aiSummary := "No data to analyze."
                   news := ([] : List NewsItem) }
        (detailFinally sEmpty, { aiRequest := none, newsIssued := false })
    | OhlcvOutcome.netError m =>
      (detailFinally (detailCatch m s),
       { aiRequest := none, newsIssued := false })
    | OhlcvOutcome.httpError st b =>
      (detailFinally
         (detailCatch (ohlcvThrownMsg (OhlcvOutcome.httpError st b)) s),
       { aiRequest := none, newsIssued := false })

/-- One full detail cycle running uninterrupted: prelude followed by the
asynchronous body. -/
def runDetailCycle (lib : IndicatorLib) (selected : String)
    (coins : List CoinData) (env : DetailEnv) (s : AppState) :
    AppState × DetailLog :=
  cycleBody lib selected coins env (cyclePrefix s)

/-- The state reached when two selections are issued in quick succession,
first `symA` then `symB`, and `symA`'s responses all resolve after `symB`'s:
both cycle preludes run synchronously (in selection order), then `symB`'s
body commits, then `symA`'s body commits.  This schedule is realizable in the
source because the effect at app.tsx lines 369-533 installs no cleanup and
performs no staleness check before committing. -/
def raceFinalState (lib : IndicatorLib) (coins : List CoinData)
    (symA symB : String) (envA envB : DetailEnv) (s0 : AppState) : AppState :=
  (cycleBody lib symA coins envA
    (cycleBody lib symB coins envB (cyclePrefix (cyclePrefix s0))).1).1

/-! Concrete fixtures used by the scenario theorems below. -/

/-- A concrete coin with symbol `AAA`, rank 1. -/
def coinA : CoinData :=
  { id := 1, name := "Acoin", symbol := "AAA", logo := "la",
    currentPrice := 10, volume24h := 100, percentChange1h := 0,
    percentChange24h := 1, percentChange7d := 2, marketCap := 1000,
    cmcRank := 1 }

/-- A concrete coin with symbol `BBB`, rank 2. -/
def coinB : CoinData :=
  { id := 2, name := "Bcoin", symbol := "BBB", logo := "lb",
    currentPrice := 20, volume24h := 200, percentChange1h := 0,
    percentChange24h := 1, percentChange7d := 2, marketCap := 2000,
    cmcRank := 2 }

/-- The initial component state (app.tsx lines 196-207): no chart, no errors,
the `AI analysis loading...` placeholder, empty news. -/
def initialAppState : AppState :=
  { chartData := none, chartLoading := false, chartError := none,
    indicators := none, aiSummary := "AI analysis loading...", news := [],
    newsLoading := false, newsError := none }

/-- Fully successful responses for a detail cycle on `AAA`. -/
def envA : DetailEnv :=
  { ohlcv := OhlcvOutcome.ok
      [{ datetime := 1, close := 10 }, { datetime := 2, close := 11 }],
    ai := AiOutcome.ok "Analysis for AAA",
    newsR := NewsOutcome.ok [{ title := "AAA news", url := "ua" }] }

/-- Fully successful responses for a detail cycle on `BBB`. -/
def envB : DetailEnv :=
  { ohlcv := OhlcvOutcome.ok
      [{ datetime := 1, close := 20 }, { datetime := 2, close := 21 }],
    ai := AiOutcome.ok "Analysis for BBB",
    newsR := NewsOutcome.ok [{ title := "BBB news", url := "ub" }] }

/-- Responses where the OHLCV and news fetches would succeed (news with two
items) but the AI-analysis call fails with a 500. -/
def envC2 : DetailEnv :=
  { ohlcv := OhlcvOutcome.ok
      [{ datetime := 1, close := 10 }, { datetime := 2, close := 11 }],
    ai := AiOutcome.httpError 500 "Internal Server Error",
    newsR := NewsOutcome.ok
      [{ title := "n1", url := "u1" }, { title := "n2", url := "u2" }] }

/-- Responses where the OHLCV fetch itself fails with a 500. -/
def envC3 : DetailEnv :=
  { ohlcv := OhlcvOutcome.httpError 500 "boom",
    ai := AiOutcome.ok "unused",
    newsR := NewsOutcome.ok [{ title := "n1", url := "u1" }] }

/-- A chart left over from a previous, successful cycle. -/
def chart0 : ChartDataM :=
  { labels := [1], priceData := [10], datasetLabel := "AAA Price (USD)" }

/-- A state in which a previous cycle already committed `chart0`. -/
def sWithChart : AppState := { initialAppState with chartData := some chart0 }

/-- A close-price series whose RSI(14) is `200/3`, a value that does not have
a finite 2-decimal representation (deltas: one gain of 2, one loss of 1,
twelve zero deltas). -/
def pricesC4 : List ℚ := [1, 3, 2, 2, 2, 2, 2, 2, 2, 2, 2, 2, 2, 2, 2]

/-- A raw quote entry with a given id, symbol and rank, all optional metrics
absent. -/
def rawQ (i : Nat) (sym : String) (rank : Nat) : RawCoin :=
  { id := i, name := sym, symbol := sym, logo := none, currentPrice := none,
    volume24h := none, percentChange1h := none, percentChange24h := none,
    percentChange7d := none, marketCap := none, cmcRank := rank }

/-- Five raw quotes arriving with ranks in the order [3, 1, 5, 2, 4]. -/
def raw5 : List RawCoin :=
  [rawQ 1 "C3" 3, rawQ 2 "C1" 1, rawQ 3 "C5" 5, rawQ 4 "C2" 2, rawQ 5 "C4" 4]

/-! Claim theorems. -/

/-- C1: the claim states that with two selections A then B in quick
succession, only the cycle whose captured symbol matches the current
selection may commit, and A's results are discarded whatever the completion
order.  The effect at app.tsx lines 369-533 installs no cleanup and performs
no staleness check, so on the realizable schedule in which A's responses
resolve after B's, A's stale chart, AI summary and news overwrite B's
committed state even though the live selection is B: after B's body committed
its own analysis, A's late body commits `Analysis for AAA`, `AAA` news and an
`AAA` chart as the final state. -/
theorem claim_C1_stale_cycle_commits :
    ((cycleBody specLib "BBB" [coinA, coinB] envB
        (cyclePrefix (cyclePrefix initialAppState))).1).aiSummary
      = "Analysis for BBB"
    ∧ (raceFinalState specLib [coinA, coinB] "AAA" "BBB" envA envB
        initialAppState).aiSummary = "Analysis for AAA"
    ∧ (raceFinalState specLib [coinA, coinB] "AAA" "BBB" envA envB
        initialAppState).news = [{ title := "AAA news", url := "ua" }]
    ∧ ((raceFinalState specLib [coinA, coinB] "AAA" "BBB" envA envB
        initialAppState).chartData.map (fun c => c.datasetLabel))
      = some "AAA Price (USD)"
    ∧ (raceFinalState specLib [coinA, coinB] "AAA" "BBB" envA envB
        initialAppState).aiSummary ≠ "Analysis for BBB" :=
  ⟨by decide, by decide, by decide, by decide, by decide⟩

/-- C5: for every input text and whatever the network would have answered,
translating with target language equal to the source language (English)
returns the input unchanged and issues no network call (the returned flag is
`false`). -/
theorem claim_C5_translate_en_noop (text : String) (net : TranslateNet) :
    translateText text Language.en net = (text, false) := by
  unfold translateText
  simp

/-- C6: for every input text and target language, each failure mode of the
remote translation call (network error, non-ok response, malformed response
body) makes `translateText` return the original untranslated input; the
function is total, so no error propagates to the caller. -/
theorem claim_C6_translate_failure_returns_input (text : String)
    (lang : Language) :
    (translateText text lang TranslateNet.netError).1 = text
    ∧ (translateText text lang TranslateNet.notOk).1 = text
    ∧ (translateText text lang TranslateNet.malformed).1 = text := by
  unfold translateText
  refine ⟨?_, ?_, ?_⟩ <;> split <;> rfl

/-- C2 counterexample: with a 500 from the AI-analysis call while the news
call would succeed with two items, the final state has an EMPTY news list and
the news error flag set to the AI failure message (the news fetch is never
issued, because it is only reached after a successful AI response and the
thrown AI error lands in the outer catch, which runs `setNewsError` and
`setNews([])`).  This contradicts the claim that the two news items are shown
with no news error; the summary-placeholder part of the claim does hold. -/
theorem claim_C2_counterexample :
    (runDetailCycle specLib "AAA" [coinA, coinB] envC2 initialAppState).1.news
      = []
    ∧ (runDetailCycle specLib "AAA" [coinA, coinB] envC2
        initialAppState).1.newsError
      = some "AI Analysis API Error: 500 - Internal Server Error"
    ∧ (runDetailCycle specLib "AAA" [coinA, coinB] envC2
        initialAppState).2.newsIssued = false
    ∧ (runDetailCycle specLib "AAA" [coinA, coinB] envC2
        initialAppState).1.aiSummary
      = "AI analysis error: AI Analysis API Error: 500 - Internal Server Error"
    ∧ ¬((runDetailCycle specLib "AAA" [coinA, coinB] envC2
          initialAppState).1.news
        = [{ title := "n1", url := "u1" }, { title := "n2", url := "u2" }]
        ∧ (runDetailCycle specLib "AAA" [coinA, coinB] envC2
            initialAppState).1.newsError = none) :=
  ⟨by decide, by decide, by decide, by decide, by decide⟩

/-- C2 as amended: within one detail cycle, if the AI-analysis request fails,
the news request is never issued; the final state has an empty news list, the
news error flag set to the AI failure message, the AI summary replaced by the
placeholder `AI analysis error: <message>` carrying the failure reason, the
chart error set to the same message and the indicator snapshot cleared. -/
theorem claim_C2_ai_failure_blocks_news (lib : IndicatorLib) (sel : String)
    (coins : List CoinData) (coin : CoinData) (env : DetailEnv) (s : AppState)
    (vs : List PricePoint)
    (hFind : coins.find? (fun c => c.symbol == sel) = some coin)
    (hOhlcv : env.ohlcv = OhlcvOutcome.ok vs) (hvs : 0 < vs.length)
    (hAi : aiFailed env.ai = true) :
    (runDetailCycle lib sel coins env s).1.news = []
    ∧ (runDetailCycle lib sel coins env s).1.newsError
        = some (aiThrownMsg env.ai)
    ∧ (runDetailCycle lib sel coins env s).1.aiSummary
        = "AI analysis error: " ++ aiThrownMsg env.ai
    ∧ (runDetailCycle lib sel coins env s).2.newsIssued = false
    ∧ (runDetailCycle lib sel coins env s).1.indicators = none
    ∧ (runDetailCycle lib sel coins env s).1.chartError
        = some (aiThrownMsg env.ai) := by
  unfold runDetailCycle cycleBody
  rw [hFind, hOhlcv]
  simp only [hvs, if_pos]
  cases hAiEq : env.ai with
  | ok a => rw [hAiEq] at hAi; simp [aiFailed] at hAi
  | netError m =>
    simp [detailFinally, detailCatch, aiThrownMsg]
  | httpError st b =>
    simp [detailFinally, detailCatch, aiThrownMsg]

/-- C2 witness: the amended theorem applied to the concrete 500-failure
environment. -/
theorem claim_C2_witness :
    (runDetailCycle specLib "AAA" [coinA, coinB] envC2 initialAppState).1.news
      = []
    ∧ (runDetailCycle specLib "AAA" [coinA, coinB] envC2
        initialAppState).1.newsError = some (aiThrownMsg envC2.ai)
    ∧ (runDetailCycle specLib "AAA" [coinA, coinB] envC2
        initialAppState).1.aiSummary
      = "AI analysis error: " ++ aiThrownMsg envC2.ai
    ∧ (runDetailCycle specLib "AAA" [coinA, coinB] envC2
        initialAppState).2.newsIssued = false
    ∧ (runDetailCycle specLib "AAA" [coinA, coinB] envC2
        initialAppState).1.indicators = none
    ∧ (runDetailCycle specLib "AAA" [coinA, coinB] envC2
        initialAppState).1.chartError = some (aiThrownMsg envC2.ai) :=
  claim_C2_ai_failure_blocks_news specLib "AAA" [coinA, coinB] coinA envC2
    initialAppState
    [{ datetime := 1, close := 10 }, { datetime := 2, close := 11 }]
    (by decide) rfl (by decide) rfl

/-- C3 counterexample: when the OHLCV fetch fails with a 500 in a state that
still holds a previous chart, the final state STILL holds that chart
(`setChartData` is never called in the catch block) and the AI summary is the
error placeholder, not a "no data" fallback text.  This contradicts the
claim's "chart emptied" and "summary replaced by a fallback no-data text". -/
theorem claim_C3_counterexample :
    (runDetailCycle specLib "AAA" [coinA, coinB] envC3 sWithChart).1.chartData
      = some chart0
    ∧ (runDetailCycle specLib "AAA" [coinA, coinB] envC3
        sWithChart).1.chartData ≠ none
    ∧ (runDetailCycle specLib "AAA" [coinA, coinB] envC3
        sWithChart).1.aiSummary
      = "AI analysis error: Twelve Data OHLCV API Error: 500 - boom"
    ∧ (runDetailCycle specLib "AAA" [coinA, coinB] envC3
        sWithChart).1.aiSummary ≠ "No data to analyze." :=
  ⟨by decide, by decide, by decide, by decide⟩

/-- C3 as amended: when the OHLCV history fetch fails (network error or
non-ok response), the cycle commits a failed state in which the indicator
snapshot is emptied and the AI summary is replaced by the error placeholder
`AI analysis error: <message>` (not a "no data" text); a user-visible chart
error is set; the news list is cleared and the news error is set to the same
message; both loading flags are cleared and no AI or news request is issued
(no retry — the cycle runs once and issues nothing further).  The chart data
state itself is left unchanged from the previous state: only the error
display supersedes it. -/
theorem claim_C3_ohlcv_failure_state (lib : IndicatorLib) (sel : String)
    (coins : List CoinData) (coin : CoinData) (env : DetailEnv) (s : AppState)
    (hFind : coins.find? (fun c => c.symbol == sel) = some coin)
    (hFail : ohlcvFailed env.ohlcv = true) :
    (runDetailCycle lib sel coins env s).1.chartData = s.chartData
    ∧ (runDetailCycle lib sel coins env s).1.chartError
        = some (ohlcvThrownMsg env.ohlcv)
    ∧ (runDetailCycle lib sel coins env s).1.indicators = none
    ∧ (runDetailCycle lib sel coins env s).1.aiSummary
        = "AI analysis error: " ++ ohlcvThrownMsg env.ohlcv
    ∧ (runDetailCycle lib sel coins env s).1.news = []
    ∧ (runDetailCycle lib sel coins env s).1.newsError
        = some (ohlcvThrownMsg env.ohlcv)
    ∧ (runDetailCycle lib sel coins env s).1.chartLoading = false
    ∧ (runDetailCycle lib sel coins env s).1.newsLoading = false
    ∧ (runDetailCycle lib sel coins env s).2.aiRequest = none
    ∧ (runDetailCycle lib sel coins env s).2.newsIssued = false := by
  unfold runDetailCycle cycleBody
  rw [hFind]
  cases hEq : env.ohlcv with
  | ok vs => rw [hEq] at hFail; simp [ohlcvFailed] at hFail
  | netError m =>
    simp [detailFinally, detailCatch, ohlcvThrownMsg, cyclePrefix]
  | httpError st b =>
    simp [detailFinally, detailCatch, ohlcvThrownMsg, cyclePrefix]

/-- C3 witness: the amended theorem applied to the concrete 500-failure
environment over a state holding a previous chart. -/
theorem claim_C3_witness :
    (runDetailCycle specLib "AAA" [coinA, coinB] envC3 sWithChart).1.chartData
      = sWithChart.chartData
    ∧ (runDetailCycle specLib "AAA" [coinA, coinB] envC3
        sWithChart).1.chartError = some (ohlcvThrownMsg envC3.ohlcv)
    ∧ (runDetailCycle specLib "AAA" [coinA, coinB] envC3
        sWithChart).1.indicators = none
    ∧ (runDetailCycle specLib "AAA" [coinA, coinB] envC3
        sWithChart).1.aiSummary
      = "AI analysis error: " ++ ohlcvThrownMsg envC3.ohlcv
    ∧ (runDetailCycle specLib "AAA" [coinA, coinB] envC3 sWithChart).1.news
      = []
    ∧ (runDetailCycle specLib "AAA" [coinA, coinB] envC3
        sWithChart).1.newsError = some (ohlcvThrownMsg envC3.ohlcv)
    ∧ (runDetailCycle specLib "AAA" [coinA, coinB] envC3
        sWithChart).1.chartLoading = false
    ∧ (runDetailCycle specLib "AAA" [coinA, coinB] envC3
        sWithChart).1.newsLoading = false
    ∧ (runDetailCycle specLib "AAA" [coinA, coinB] envC3
        sWithChart).2.aiRequest = none
    ∧ (runDetailCycle specLib "AAA" [coinA, coinB] envC3
        sWithChart).2.newsIssued = false :=
  claim_C3_ohlcv_failure_state specLib "AAA" [coinA, coinB] coinA envC3
    sWithChart (by decide) rfl

/-- Applying the `toFixed`-and-parse rounding twice at the same precision is
a numeric no-op: the first result is an integer multiple of `10 ^ (-d)`, which
the second application maps to itself. -/
theorem roundToFixed_idempotent (d : Nat) (x : ℚ) :
    roundToFixed d (roundToFixed d x) = roundToFixed d x := by
  unfold roundToFixed
  have ht : ((10 : ℚ)) ^ d ≠ 0 := pow_ne_zero d (by norm_num)
  rw [div_mul_cancel₀ _ ht, Int.floor_int_add]
  have h2 : ⌊(1 / 2 : ℚ)⌋ = 0 := by norm_num
  rw [h2, Int.add_zero]

/-- C4 counterexample: with the close-price series `pricesC4`, the indicator
library's raw RSI value is `200/3` (full precision), but the committed
indicator snapshot and the AI-analysis request body both carry the ROUNDED
value `66.67`, not the unrounded one.  This contradicts the claim that "the
values embedded in the AI-analysis request body are the unrounded ones" and
that the orchestrator retains full-precision values internally: the source
stores `parseFloat(currentRsi.toFixed(2))` in `currentIndicators` (line 454)
and sends `currentIndicators.rsi` in the request body (line 475). -/
theorem claim_C4_counterexample :
    (specLib.rsiCalc 14 pricesC4).getLast? = some (200 / 3)
    ∧ (computeCurrentIndicators specLib pricesC4).rsi = some (6667 / 100)
    ∧ (buildAiRequestBody "AAA" coinA
        (computeCurrentIndicators specLib pricesC4) []).rsi
      = some (6667 / 100)
    ∧ ((6667 : ℚ) / 100) ≠ 200 / 3 := by
  refine ⟨?_, ?_, ?_, by norm_num⟩
  · norm_num [specLib, rsiList, rsiOf, pricesC4]
  · norm_num [computeCurrentIndicators, roundToFixed, specLib, rsiList,
      rsiOf, macdList, emaList, smaList, pricesC4]
  · norm_num [buildAiRequestBody, computeCurrentIndicators, roundToFixed,
      specLib, rsiList, rsiOf, macdList, emaList, smaList, pricesC4]

/-- C4 as amended: indicator values are rounded once at COMPUTATION time, not
at the display boundary — the committed snapshot holds the rounded values
(RSI to 2 decimals, MACD family to 4, SMAs to 4), the AI-analysis request
body embeds exactly those stored rounded values (not full-precision ones),
and re-applying the same display rounding to a stored value is numerically
idempotent, so the rendered value never changes twice. -/
theorem claim_C4_rounded_at_computation (lib : IndicatorLib)
    (prices : List ℚ) (sel : String) (coin : CoinData) (ns : List NewsItem)
    (d : Nat) (x : ℚ) :
    (computeCurrentIndicators lib prices).rsi
      = ((lib.rsiCalc 14 prices).getLast?).map (roundToFixed 2)
    ∧ (computeCurrentIndicators lib prices).macd
      = (((lib.macdCalc prices).getLast?).getD
          { MACD := none, signal := none, histogram := none }).MACD.map
          (roundToFixed 4)
    ∧ (computeCurrentIndicators lib prices).macdSignal
      = (((lib.macdCalc prices).getLast?).getD
          { MACD := none, signal := none, histogram := none }).signal.map
          (roundToFixed 4)
    ∧ (computeCurrentIndicators lib prices).macdHistogram
      = (((lib.macdCalc prices).getLast?).getD
          { MACD := none, signal := none, histogram := none }).histogram.map
          (roundToFixed 4)
    ∧ (computeCurrentIndicators lib prices).sma50
      = ((lib.smaCalc 50 prices).getLast?).map (roundToFixed 4)
    ∧ (computeCurrentIndicators lib prices).sma200
      = ((lib.smaCalc 200 prices).getLast?).map (roundToFixed 4)
    ∧ (buildAiRequestBody sel coin (computeCurrentIndicators lib prices)
        ns).rsi = (computeCurrentIndicators lib prices).rsi
    ∧ (buildAiRequestBody sel coin (computeCurrentIndicators lib prices)
        ns).macd = (computeCurrentIndicators lib prices).macd
    ∧ (buildAiRequestBody sel coin (computeCurrentIndicators lib prices)
        ns).sma50 = (computeCurrentIndicators lib prices).sma50
    ∧ (buildAiRequestBody sel coin (computeCurrentIndicators lib prices)
        ns).sma200 = (computeCurrentIndicators lib prices).sma200
    ∧ roundToFixed d (roundToFixed d x) = roundToFixed d x :=
  ⟨rfl, rfl, rfl, rfl, rfl, rfl, rfl, rfl, rfl, rfl,
    roundToFixed_idempotent d x⟩

/-- C7: when the OHLCV endpoint responds successfully with an empty (or
missing) `values` array and the selected coin is found, the cycle ends with
the chart cleared, the indicator snapshot emptied (every indicator
unavailable), the AI summary set to the fixed placeholder
`No data to analyze.`, the news list empty, no news error set, and neither
the AI-analysis nor the news fetch issued; the whole outcome is independent
of what the AI and news endpoints would have answered, so the empty response
is handled as valid "no data" rather than as a transport error. -/
theorem claim_C7_empty_values_no_data (lib : IndicatorLib) (sel : String)
    (coins : List CoinData) (coin : CoinData) (s : AppState)
    (ai1 ai2 : AiOutcome) (n1 n2 : NewsOutcome)
    (hFind : coins.find? (fun c => c.symbol == sel) = some coin) :
    (runDetailCycle lib sel coins
        { ohlcv := OhlcvOutcome.ok [], ai := ai1, newsR := n1 } s).1.chartData
      = none
    ∧ (runDetailCycle lib sel coins
        { ohlcv := OhlcvOutcome.ok [], ai := ai1, newsR := n1 } s).1.indicators
      = none
    ∧ (runDetailCycle lib sel coins
        { ohlcv := OhlcvOutcome.ok [], ai := ai1, newsR := n1 } s).1.aiSummary
      = "No data to analyze."
    ∧ (runDetailCycle lib sel coins
        { ohlcv := OhlcvOutcome.ok [], ai := ai1, newsR := n1 } s).1.news = []
    ∧ (runDetailCycle lib sel coins
        { ohlcv := OhlcvOutcome.ok [], ai := ai1, newsR := n1 } s).1.newsError
      = none
    ∧ (runDetailCycle lib sel coins
        { ohlcv := OhlcvOutcome.ok [], ai := ai1, newsR := n1 } s).1.chartError
      = some "No OHLCV data found for this coin from Twelve Data."
    ∧ (runDetailCycle lib sel coins
        { ohlcv := OhlcvOutcome.ok [], ai := ai1, newsR := n1 } s).2.newsIssued
      = false
    ∧ (runDetailCycle lib sel coins
        { ohlcv := OhlcvOutcome.ok [], ai := ai1, newsR := n1 } s).2.aiRequest
      = none
    ∧ runDetailCycle lib sel coins
        { ohlcv := OhlcvOutcome.ok [], ai := ai1, newsR := n1 } s
      = runDetailCycle lib sel coins
        { ohlcv := OhlcvOutcome.ok [], ai := ai2, newsR := n2 } s := by
  unfold runDetailCycle cycleBody
  rw [hFind]
  simp [detailFinally, cyclePrefix]

/-- C7 witness: the empty-values theorem applied to a concrete coin list and
two different (and disagreeing) hypothetical AI/news outcomes. -/
theorem claim_C7_witness :
    (runDetailCycle specLib "AAA" [coinA, coinB]
        { ohlcv := OhlcvOutcome.ok [], ai := AiOutcome.ok "x",
          newsR := NewsOutcome.ok [{ title := "n", url := "u" }] }
        initialAppState).1.chartData = none
    ∧ (runDetailCycle specLib "AAA" [coinA, coinB]
        { ohlcv := OhlcvOutcome.ok [], ai := AiOutcome.ok "x",
          newsR := NewsOutcome.ok [{ title := "n", url := "u" }] }
        initialAppState).1.indicators = none
    ∧ (runDetailCycle specLib "AAA" [coinA, coinB]
        { ohlcv := OhlcvOutcome.ok [], ai := AiOutcome.ok "x",
          newsR := NewsOutcome.ok [{ title := "n", url := "u" }] }
        initialAppState).1.aiSummary = "No data to analyze."
    ∧ (runDetailCycle specLib "AAA" [coinA, coinB]
        { ohlcv := OhlcvOutcome.ok [], ai := AiOutcome.ok "x",
          newsR := NewsOutcome.ok [{ title := "n", url := "u" }] }
        initialAppState).1.news = []
    ∧ (runDetailCycle specLib "AAA" [coinA, coinB]
        { ohlcv := OhlcvOutcome.ok [], ai := AiOutcome.ok "x",
          newsR := NewsOutcome.ok [{ title := "n", url := "u" }] }
        initialAppState).1.newsError = none
    ∧ (runDetailCycle specLib "AAA" [coinA, coinB]
        { ohlcv := OhlcvOutcome.ok [], ai := AiOutcome.ok "x",
          newsR := NewsOutcome.ok [{ title := "n", url := "u" }] }
        initialAppState).1.chartError
      = some "No OHLCV data found for this coin from Twelve Data."
    ∧ (runDetailCycle specLib "AAA" [coinA, coinB]
        { ohlcv := OhlcvOutcome.ok [], ai := AiOutcome.ok "x",
          newsR := NewsOutcome.ok [{ title := "n", url := "u" }] }
        initialAppState).2.newsIssued = false
    ∧ (runDetailCycle specLib "AAA" [coinA, coinB]
        { ohlcv := OhlcvOutcome.ok [], ai := AiOutcome.ok "x",
          newsR := NewsOutcome.ok [{ title := "n", url := "u" }] }
        initialAppState).2.aiRequest = none
    ∧ runDetailCycle specLib "AAA" [coinA, coinB]
        { ohlcv := OhlcvOutcome.ok [], ai := AiOutcome.ok "x",
          newsR := NewsOutcome.ok [{ title := "n", url := "u" }] }
        initialAppState
      = runDetailCycle specLib "AAA" [coinA, coinB]
        { ohlcv := OhlcvOutcome.ok [], ai := AiOutcome.httpError 500 "y",
          newsR := NewsOutcome.netError "z" }
        initialAppState :=
  claim_C7_empty_values_no_data specLib "AAA" [coinA, coinB] coinA
    initialAppState (AiOutcome.ok "x") (AiOutcome.httpError 500 "y")
    (NewsOutcome.ok [{ title := "n", url := "u" }]) (NewsOutcome.netError "z")
    (by decide)

/-- C8: for every fetched quote list, the stored asset list is sorted by CMC
rank ascending and is a permutation of the mapped input; when the list is
non-empty, the selection is updated to the symbol of the coin at position 0,
which has the minimal rank; when the input is empty, no selection update
happens. -/
theorem claim_C8_quotes_sorted_autoselect (json : List RawCoin) :
    List.Sorted (fun a b => a.cmcRank ≤ b.cmcRank) (fetchCoinsProcess json).1
    ∧ List.Perm (fetchCoinsProcess json).1 (json.map mapCoin)
    ∧ (∀ hd, (fetchCoinsProcess json).1.head? = some hd →
        (fetchCoinsProcess json).2 = some hd.symbol
        ∧ ∀ c ∈ (fetchCoinsProcess json).1, hd.cmcRank ≤ c.cmcRank)
    ∧ (json = [] → (fetchCoinsProcess json).2 = none) := by
  refine ⟨List.sorted_insertionSort _ _, List.perm_insertionSort _ _, ?_, ?_⟩
  · intro hd hhd
    constructor
    · show ((fetchCoinsProcess json).1.head?.map (fun c => c.symbol))
        = some hd.symbol
      rw [hhd]
      rfl
    · intro c hc
      have hs : List.Sorted (fun a b : CoinData => a.cmcRank ≤ b.cmcRank)
          (fetchCoinsProcess json).1 := List.sorted_insertionSort _ _
      cases hl : (fetchCoinsProcess json).1 with
      | nil => rw [hl] at hhd; simp at hhd
      | cons a tl =>
        rw [hl] at hhd hs hc
        have ha : a = hd := by simpa using hhd
        subst ha
        rcases List.mem_cons.mp hc with h | h
        · subst h; exact Nat.le_refl _
        · exact (List.pairwise_cons.mp hs).1 c h
  · intro h
    subst h
    rfl

/-- C8 witness: the theorem applied to five quotes with ranks [3, 1, 5, 2, 4];
the stored ranks are [1, 2, 3, 4, 5] and the rank-1 coin `C1` is selected. -/
theorem claim_C8_witness :
    (fetchCoinsProcess raw5).2 = some (mapCoin (rawQ 2 "C1" 1)).symbol
    ∧ (∀ c ∈ (fetchCoinsProcess raw5).1,
        (mapCoin (rawQ 2 "C1" 1)).cmcRank ≤ c.cmcRank)
    ∧ ((fetchCoinsProcess raw5).1.map (fun c => c.cmcRank)) = [1, 2, 3, 4, 5]
    ∧ (fetchCoinsProcess raw5).2 = some "C1" := by
  have h := (claim_C8_quotes_sorted_autoselect raw5).2.2.1
    (mapCoin (rawQ 2 "C1" 1)) (by decide)
  exact ⟨h.1, h.2, by decide, by decide⟩

/-- A tick never changes the source text of the typewriter. -/
theorem twTick_text_eq (s : TypewriterState) : (twTick s).text = s.text := by
  unfold twTick
  split
  · split <;> rfl
  · rfl

/-- A tick never decreases the reveal counter. -/
theorem twTick_visible_le (s : TypewriterState) :
    s.visible ≤ (twTick s).visible := by
  unfold twTick
  split
  · split <;> simp
  · exact Nat.le_refl _

/-- A tick keeps the reveal counter within the stripped content length. -/
theorem twTick_visible_bound (s : TypewriterState)
    (h : s.visible ≤ plainLen s.text) :
    (twTick s).visible ≤ plainLen s.text := by
  unfold twTick
  split
  · split
    · next hlt => exact hlt
    · exact h
  · exact h

/-- Along any run of ticks the text is constant and the counter stays within
the stripped content length. -/
theorem twTick_iter_inv (n : Nat) (s : TypewriterState)
    (h : s.visible ≤ plainLen s.text) :
    (twTick^[n] s).text = s.text
    ∧ (twTick^[n] s).visible ≤ plainLen s.text := by
  induction n with
  | zero => exact ⟨rfl, h⟩
  | succ n ih =>
    rw [Function.iterate_succ_apply']
    refine ⟨(twTick_text_eq _).trans ih.1, ?_⟩
    have := twTick_visible_bound (twTick^[n] s) (by rw [ih.1]; exact ih.2)
    rwa [ih.1] at this

/-- C9: across ticks of one typewriter run the reveal counter is
monotonically non-decreasing and never exceeds the stripped content length
(also along any number of ticks after a reset); replacing the display string
resets the counter to 0 and cancels the previous interval (the new state is
independent of the prior one); and once the counter has reached the full
stripped length, a tick leaves it unchanged and stops the timer — no
looping. -/
theorem claim_C9_typewriter_reveal (s s' : TypewriterState) (t : String)
    (n : Nat) (hInv : s.visible ≤ plainLen s.text) :
    s.visible ≤ (twTick s).visible
    ∧ (twTick s).visible ≤ plainLen s.text
    ∧ (twSetText t s).visible = 0
    ∧ twSetText t s = twSetText t s'
    ∧ (twTick^[n] (twSetText t s)).visible ≤ plainLen t
    ∧ (s.visible = plainLen s.text →
        (twTick s).visible = s.visible ∧ (twTick s).timerActive = false) := by
  refine ⟨twTick_visible_le s, twTick_visible_bound s hInv, ?_, rfl, ?_, ?_⟩
  · unfold twSetText; split <;> rfl
  · have htext : (twSetText t s).text = t := by unfold twSetText; split <;> rfl
    have hvis : (twSetText t s).visible = 0 := by
      unfold twSetText; split <;> rfl
    have := (twTick_iter_inv n (twSetText t s)
      (by rw [hvis]; exact Nat.zero_le _)).2
    rwa [htext] at this
  · intro hfull
    unfold twTick
    constructor
    · split
      · split
        · next hlt => rw [hfull] at hlt; exact absurd hlt (Nat.lt_irrefl _)
        · rfl
      · rfl
    · split
      · split
        · next hlt => rw [hfull] at hlt; exact absurd hlt (Nat.lt_irrefl _)
        · rfl
      · next hact => simpa using hact

/-- C9 witness: the typewriter theorem applied to the fully-revealed state
`("ab", 2, timer on)`, a reset to `"xy"` and three subsequent ticks. -/
theorem claim_C9_witness :
    (({ text := "ab", visible := 2, timerActive := true } :
        TypewriterState)).visible
      ≤ (twTick { text := "ab", visible := 2, timerActive := true }).visible
    ∧ (twTick { text := "ab", visible := 2, timerActive := true }).visible
      ≤ plainLen "ab"
    ∧ (twSetText "xy"
        { text := "ab", visible := 2, timerActive := true }).visible = 0
    ∧ twSetText "xy" { text := "ab", visible := 2, timerActive := true }
      = twSetText "xy" { text := "q", visible := 0, timerActive := false }
    ∧ (twTick^[3] (twSetText "xy"
        { text := "ab", visible := 2, timerActive := true })).visible
      ≤ plainLen "xy"
    ∧ ((twTick { text := "ab", visible := 2, timerActive := true }).visible
        = 2
      ∧ (twTick
          { text := "ab", visible := 2, timerActive := true }).timerActive
        = false) := by
  have h := claim_C9_typewriter_reveal
    { text := "ab", visible := 2, timerActive := true }
    { text := "q", visible := 0, timerActive := false } "xy" 3 (by decide)
  exact ⟨h.1, h.2.1, h.2.2.1, h.2.2.2.1, h.2.2.2.2.1,
    h.2.2.2.2.2 (by decide)⟩

/-- C10: at every point the displayed AI summary equals
`stripMarkdown(translatedAiSummary).slice(0, visibleCharacters)` — in
particular it is the length-`visibleCharacters` prefix of the
markdown-stripped translated summary, revealing no characters beyond the
counter — and when the translated summary is empty the displayed string is
empty. -/
theorem claim_C10_displayed_prefix (t : String) (v : Nat) :
    displayedAiSummary t v = String.mk (((stripMarkdown t).toList).take v)
    ∧ (displayedAiSummary t v).toList = ((stripMarkdown t).toList).take v
    ∧ (t = "" → displayedAiSummary t v = "") := by
  unfold displayedAiSummary
  by_cases h : t = ""
  · subst h
    refine ⟨?_, ?_, fun _ => rfl⟩
    · show ("" : String) = String.mk ((stripMarkdown "").toList.take v)
      have hempty : stripMarkdown "" = "" := rfl
      rw [hempty]
      show ("" : String) = String.mk (List.take v [])
      rw [List.take_nil]
    · show ("" : String).toList = (stripMarkdown "").toList.take v
      have hempty : stripMarkdown "" = "" := rfl
      rw [hempty]
      show ([] : List Char) = List.take v []
      rw [List.take_nil]
  · refine ⟨if_neg h, ?_, fun hc => absurd hc h⟩
    rw [if_neg h]
    rfl

/-- C10 witness: the displayed-prefix theorem applied to the empty summary
and reveal counter 0. -/
theorem claim_C10_witness :
    displayedAiSummary "" 0 = String.mk (((stripMarkdown "").toList).take 0)
    ∧ (displayedAiSummary "" 0).toList = ((stripMarkdown "").toList).take 0
    ∧ displayedAiSummary "" 0 = "" := by
  have h := claim_C10_displayed_prefix "" 0
  exact ⟨h.1, h.2.1, h.2.2 rfl⟩

end CryptoApp
